import Mathlib

/-!
Verification development for the alphaess open-API client
(`src/alphaess/alphaess.py`).  The Python module is shallowly embedded:

* JSON values are the inductive `JSON`; Python `None` results are `Option`.
* Python exceptions are the inductive `PyErr`; a function that can raise
  returns `Except PyErr _`.
* The HTTP layer is an oracle (`HttpOutcome` / `Server`): each embedded
  operation takes the outcome the network would produce and interprets it
  exactly as the Python code does.
* `logger.error` calls are collected in a `List String` of tags
  (debug-level logging is not modelled; every error-level log site on the
  modelled paths is).
-/

/-- JSON values, as produced by `response.json()` in the source.  Python
`None` (JSON `null`) is the constructor `null`. -/
inductive JSON where
  | null : JSON
  | bool : Bool → JSON
  | num : Int → JSON
  | str : String → JSON
  | arr : List JSON → JSON
  | obj : List (String × JSON) → JSON

/-- Python exceptions that the embedded code can raise. -/
inductive PyErr where
  /-- `aiohttp` connection-level failure raised by `session.get`/`session.post`. -/
  | connectionError : PyErr
  /-- `aiohttp.ClientResponseError` raised by `raise_for_status` on an HTTP
  error status. -/
  | responseError (status : Nat) : PyErr
  /-- the body could not be parsed as JSON. -/
  | jsonDecodeError : PyErr
  /-- `KeyError` from subscripting a dict with a missing key. -/
  | keyError (k : String) : PyErr
  /-- `TypeError` (e.g. iterating `None`, or string-subscripting a list). -/
  | typeError (m : String) : PyErr
  /-- `json_response` referenced while unbound (non-200 success status path). -/
  | unboundLocal (n : String) : PyErr
  /-- `str.encode("ascii")` on a non-ASCII string. -/
  | unicodeEncodeError : PyErr
deriving DecidableEq, Repr

/-- Dictionary lookup on the underlying association list (first match wins,
as in a Python dict, whose keys are unique). -/
def lookupKey : List (String × JSON) → String → Option JSON
  | [], _ => none
  | (k, v) :: rest, key => if k = key then some v else lookupKey rest key

/-- Python `key in value` for dict values; membership tests in the source are
only applied to JSON objects. -/
def JSON.hasKey : JSON → String → Bool
  | .obj fs, k => (lookupKey fs k).isSome
  | _, _ => false

/-- Python `value[key]` as a total lookup returning `none` when absent. -/
def JSON.getKey : JSON → String → Option JSON
  | .obj fs, k => lookupKey fs k
  | _, _ => none

/-- Python `value[key]`, raising `KeyError` when the key is missing and
`TypeError` when the value is not subscriptable by a string. -/
def getItem (j : JSON) (k : String) : Except PyErr JSON :=
  match j with
  | .obj fs =>
    match lookupKey fs k with
    | some v => .ok v
    | none => .error (.keyError k)
  | _ => .error (.typeError "value is not subscriptable")

/-- Update of the underlying association list: overwrite in place when the key
exists, append otherwise (Python dict assignment preserves insertion order). -/
def setFields : List (String × JSON) → String → JSON → List (String × JSON)
  | [], k, v => [(k, v)]
  | (k', v') :: rest, k, v =>
    if k' = k then (k, v) :: rest else (k', v') :: setFields rest k v

/-- Python `unit[key] = v` on a dict.  In the source this is only applied to
values already known to be objects (guarded by `"sysSn" in unit`); on non-object
values the embedding leaves the value unchanged. -/
def JSON.setKeyO : JSON → String → JSON → JSON
  | .obj fs, k, v => .obj (setFields fs k v)
  | j, _, _ => j

/-- A library return value: `none` is Python `None`, `some v` is the value. -/
def pyToJSON : Option JSON → JSON
  | none => .null
  | some v => v

/-- Python `x == "Success"` applied to the looked-up `msg` value: true exactly
when the value is present and is the string `"Success"` (a value of any other
shape compares unequal in Python). -/
def msgIsSuccess : Option JSON → Bool
  | some (.str s) => s = "Success"
  | _ => false

/-- Python `x is None` for parsed JSON values. -/
def JSON.isNull : JSON → Bool
  | .null => true
  | _ => false

/-- What the HTTP layer produces for one request: either a connection-level
failure (the session call raises), or a status together with a body
(`none` models a body that fails JSON parsing). -/
inductive HttpOutcome where
  | connError : HttpOutcome
  | response (status : Nat) (body : Option JSON) : HttpOutcome

/-- `api_get` (source lines 194-224), as a function of the network outcome.
`raise_for_status=True` makes statuses ≥ 400 raise inside the request; for a
200 status the body is parsed and the envelope interpreted; for any other
non-error status the code logs and then hits the unbound `json_response`.
The second component collects the error-level log tags emitted. -/
def api_get (o : HttpOutcome) : Except PyErr (Option JSON) × List String :=
  match o with
  | .connError =>
    (.error .connectionError, ["error: exception"])
  | .response status body =>
    if 400 ≤ status then
      (.error (.responseError status), ["error: exception"])
    else if status = 200 then
      match body with
      | none => (.error .jsonDecodeError, ["error: exception"])
      | some j =>
        if (j.hasKey "msg" && !(msgIsSuccess (j.getKey "msg")))
            || !j.hasKey "msg" then
          (.ok none, ["error: unexpected json_response"])
        else
          match getItem j "data" with
          | .error e => (.error e, ["error: exception"])
          | .ok d =>
            if !d.isNull then (.ok (some d), [])
            else (.ok none, ["error: unexpected json_response"])
    else
      (.error (.unboundLocal "json_response"),
        ["error: unexpected response status", "error: exception"])

/-- `api_post` (source lines 226-254).  `response.raise_for_status()` raises on
statuses ≥ 400.  On a 200 body, when the success marker is present the code
returns `json_response["data"]` from both branches of the inner `if`, logging
an error exactly when `data` is not `None`; when the marker is missing or not
`"Success"` the function falls off the end of the `if` (returning `None`)
without logging anything. -/
def api_post (o : HttpOutcome) : Except PyErr (Option JSON) × List String :=
  match o with
  | .connError =>
    (.error .connectionError, ["error: exception"])
  | .response status body =>
    if 400 ≤ status then
      (.error (.responseError status), ["error: exception"])
    else if status = 200 then
      match body with
      | none => (.error .jsonDecodeError, ["error: exception"])
      | some j =>
        if j.hasKey "msg" && msgIsSuccess (j.getKey "msg") then
          match getItem j "data" with
          | .error e => (.error e, ["error: exception"])
          | .ok d =>
            if d.isNull then (.ok none, [])
            else (.ok (some d), ["error: unexpected json_response"])
        else
          (.ok none, [])
    else
      (.error (.unboundLocal "json_response"),
        ["error: unexpected response status", "error: exception"])

/-- The fixed HTTPS origin (source line 11). -/
def BASEURL : String := "https://openapi.alphaess.com/api"

/-- Resource string built by `getOneDayPowerBySn` (source lines 78-93):
the source compares `queryDate` with the current local date and uses
`queryDate` itself only when they are equal, the local date otherwise. -/
def oneDayPowerResource (sysSn queryDate localdate : String) : String :=
  if queryDate = localdate then
    BASEURL ++ "/getOneDayPowerBySn?sysSn=" ++ sysSn ++ "&queryDate=" ++ queryDate
  else
    BASEURL ++ "/getOneDayPowerBySn?sysSn=" ++ sysSn ++ "&queryDate=" ++ localdate

/-- Resource string built by `getOneDateEnergyBySn` (source lines 107-122),
with the same date comparison as `oneDayPowerResource`. -/
def oneDateEnergyResource (sysSn queryDate localdate : String) : String :=
  if queryDate = localdate then
    BASEURL ++ "/getOneDateEnergyBySn?sysSn=" ++ sysSn ++ "&queryDate=" ++ queryDate
  else
    BASEURL ++ "/getOneDateEnergyBySn?sysSn=" ++ sysSn ++ "&queryDate=" ++ localdate

/-- The shared shape of every per-endpoint GET wrapper in the source
(`getESSList`, `getLastPowerData`, ... lines 54-146): call `api_get` inside a
`try` whose `except` logs the exception and, crucially, does not re-raise, so
the wrapper returns Python `None` on any exception. -/
def wrapGet (o : HttpOutcome) : Option JSON × List String :=
  match api_get o with
  | (.ok v, l) => (v, l)
  | (.error _, l) => (none, l ++ ["error: wrapper caught"])

/-- `getESSList` (source lines 54-64). -/
def getESSList (o : HttpOutcome) : Option JSON × List String := wrapGet o

/-- `getLastPowerData` (source lines 66-76). -/
def getLastPowerData (o : HttpOutcome) : Option JSON × List String := wrapGet o

/-- `getOneDayPowerBySn` (source lines 78-93), as a function of the outcome of
the request it issues (the resource string it builds is `oneDayPowerResource`). -/
def getOneDayPowerBySn (o : HttpOutcome) : Option JSON × List String := wrapGet o

/-- `getSumDataForCustomer` (source lines 95-105). -/
def getSumDataForCustomer (o : HttpOutcome) : Option JSON × List String := wrapGet o

/-- `getOneDateEnergyBySn` (source lines 107-122). -/
def getOneDateEnergyBySn (o : HttpOutcome) : Option JSON × List String := wrapGet o

/-- `getChargeConfigInfo` (source lines 124-134). -/
def getChargeConfigInfo (o : HttpOutcome) : Option JSON × List String := wrapGet o

/-- `getDisChargeConfigInfo` (source lines 136-146). -/
def getDisChargeConfigInfo (o : HttpOutcome) : Option JSON × List String := wrapGet o

/-- `authenticate` (source lines 284-297): iterates over the `getESSList`
result setting `success` when an entry has a `sysSn` key.  Iterating a
non-list (in particular the `None` a failed wrapper returns) raises a
`TypeError`, which the `except` logs and re-raises. -/
def authenticate (o : HttpOutcome) : Except PyErr Bool × List String :=
  match getESSList o with
  | (none, l) =>
    (.error (.typeError "NoneType object is not iterable"), l ++ ["error: exception"])
  | (some (.arr us), l) => (.ok (us.any (·.hasKey "sysSn")), l)
  | (some _, l) =>
    (.error (.typeError "object is not iterable"), l ++ ["error: exception"])

/-- The endpoints `getdata` touches, used to record the order of calls. -/
inductive Endpoint where
  | essList
  | sumDataForCustomer
  | oneDateEnergy
  | lastPowerData
  | chargeConfigInfo
  | disChargeConfigInfo
  | oneDayPower
deriving DecidableEq, Repr

/-- Observable steps of the aggregation: an HTTP call to an endpoint (with
the serial value used, `null` for the list call) or an `asyncio.sleep`. -/
inductive Act where
  | call (e : Endpoint) (sysSn : JSON)
  | sleep (seconds : Nat)

/-- The network, as `getdata` sees it: one outcome for the list call and one
outcome per endpoint for each serial value. -/
structure Server where
  essList : HttpOutcome
  sumData : JSON → HttpOutcome
  oneDateEnergy : JSON → HttpOutcome
  lastPower : JSON → HttpOutcome
  chargeConfig : JSON → HttpOutcome
  disChargeConfig : JSON → HttpOutcome
  oneDayPower : JSON → HttpOutcome

/-- Body of the `if "sysSn" in unit` branch of `getdata`'s loop (source lines
262-276): the six per-device sub-calls in source order, each stored into the
unit record (a wrapper's `None` stores as `null`), with `asyncio.sleep`
between consecutive calls and the power-curve call issued only when
`get_power` is set.  Returns the enriched record and the action trace. -/
def unitCalls (srv : Server) (get_power : Bool) (self_delay : Nat) (u : JSON) :
    JSON × List Act :=
  let serial := (u.getKey "sysSn").getD .null
  let u1 := u.setKeyO "SumData" (pyToJSON (getSumDataForCustomer (srv.sumData serial)).1)
  let u2 := u1.setKeyO "OneDateEnergy" (pyToJSON (getOneDateEnergyBySn (srv.oneDateEnergy serial)).1)
  let u3 := u2.setKeyO "LastPower" (pyToJSON (getLastPowerData (srv.lastPower serial)).1)
  let u4 := u3.setKeyO "ChargeConfig" (pyToJSON (getChargeConfigInfo (srv.chargeConfig serial)).1)
  let u5 := u4.setKeyO "DisChargeConfig" (pyToJSON (getDisChargeConfigInfo (srv.disChargeConfig serial)).1)
  let base : List Act :=
    [.call .sumDataForCustomer serial, .sleep self_delay,
     .call .oneDateEnergy serial, .sleep self_delay,
     .call .lastPowerData serial, .sleep self_delay,
     .call .chargeConfigInfo serial, .sleep self_delay,
     .call .disChargeConfigInfo serial]
  if get_power then
    let u6 := u5.setKeyO "OneDayPower" (pyToJSON (getOneDayPowerBySn (srv.oneDayPower serial)).1)
    (u6, base ++ [.sleep self_delay, .call .oneDayPower serial])
  else
    (u5, base)

/-- One iteration of `getdata`'s loop (source lines 261-277): entries without
a `sysSn` key are skipped outright; for the rest the enriched record is
appended and the sub-call trace extended. -/
def getdataStep (srv : Server) (get_power : Bool) (self_delay : Nat)
    (acc : List JSON × List Act) (u : JSON) : List JSON × List Act :=
  if u.hasKey "sysSn" then
    let r := unitCalls srv get_power self_delay u
    (acc.1 ++ [r.1], acc.2 ++ r.2)
  else acc

/-- `getdata` (source lines 256-282): fetch the list through the swallowing
wrapper `getESSList`; iterate over it with `getdataStep`, in list order.
Iterating the `None` a failed wrapper returns raises a `TypeError`, which the
`except` logs and re-raises.  The second component is the trace of calls and
sleeps issued. -/
def getdata (srv : Server) (get_power : Bool) (self_delay : Nat) :
    Except PyErr (List JSON) × List Act :=
  let listTrace : List Act := [.call .essList .null]
  match (getESSList srv.essList).1 with
  | none => (.error (.typeError "NoneType object is not iterable"), listTrace)
  | some (.arr units) =>
    let step := units.foldl (getdataStep srv get_power self_delay) ([], listTrace)
    (.ok step.1, step.2)
  | some _ => (.error (.typeError "object is not iterable"), listTrace)

/-! ### SHA-512 (`hashlib.sha512`, used by `__headers`)

A direct embedding of FIPS 180-4 SHA-512 over byte lists, with 64-bit words
as `Nat` reduced modulo `2 ^ 64`. -/

/-- All-ones 64-bit mask. -/
def MASK64 : Nat := 2 ^ 64 - 1

/-- 64-bit addition. -/
def add64 (a b : Nat) : Nat := (a + b) % 2 ^ 64

/-- 64-bit right rotation. -/
def rotr64 (x n : Nat) : Nat := ((x >>> n) ||| (x <<< (64 - n))) &&& MASK64

/-- 64-bit complement. -/
def not64 (x : Nat) : Nat := MASK64 ^^^ x

/-- SHA-512 `Ch` function. -/
def shaCh (x y z : Nat) : Nat := (x &&& y) ^^^ (not64 x &&& z)

/-- SHA-512 `Maj` function. -/
def shaMaj (x y z : Nat) : Nat := (x &&& y) ^^^ (x &&& z) ^^^ (y &&& z)

/-- SHA-512 big Sigma-0. -/
def shaS0 (x : Nat) : Nat := rotr64 x 28 ^^^ rotr64 x 34 ^^^ rotr64 x 39

/-- SHA-512 big Sigma-1. -/
def shaS1 (x : Nat) : Nat := rotr64 x 14 ^^^ rotr64 x 18 ^^^ rotr64 x 41

/-- SHA-512 small sigma-0. -/
def shas0 (x : Nat) : Nat := rotr64 x 1 ^^^ rotr64 x 8 ^^^ (x >>> 7)

/-- SHA-512 small sigma-1. -/
def shas1 (x : Nat) : Nat := rotr64 x 19 ^^^ rotr64 x 61 ^^^ (x >>> 6)

/-- SHA-512 round constants (first 64 bits of the fractional parts of the cube
roots of the first 80 primes). -/
def K512 : List Nat :=
  [4794697086780616226, 8158064640168781261, 13096744586834688815,
   16840607885511220156, 4131703408338449720, 6480981068601479193,
   10538285296894168987, 12329834152419229976, 15566598209576043074,
   1334009975649890238, 2608012711638119052, 6128411473006802146,
   8268148722764581231, 9286055187155687089, 11230858885718282805,
   13951009754708518548, 16472876342353939154, 17275323862435702243,
   1135362057144423861, 2597628984639134821, 3308224258029322869,
   5365058923640841347, 6679025012923562964, 8573033837759648693,
   10970295158949994411, 12119686244451234320, 12683024718118986047,
   13788192230050041572, 14330467153632333762, 15395433587784984357,
   489312712824947311, 1452737877330783856, 2861767655752347644,
   3322285676063803686, 5560940570517711597, 5996557281743188959,
   7280758554555802590, 8532644243296465576, 9350256976987008742,
   10552545826968843579, 11727347734174303076, 12113106623233404929,
   14000437183269869457, 14369950271660146224, 15101387698204529176,
   15463397548674623760, 17586052441742319658, 1182934255886127544,
   1847814050463011016, 2177327727835720531, 2830643537854262169,
   3796741975233480872, 4115178125766777443, 5681478168544905931,
   6601373596472566643, 7507060721942968483, 8399075790359081724,
   8693463985226723168, 9568029438360202098, 10144078919501101548,
   10430055236837252648, 11840083180663258601, 13761210420658862357,
   14299343276471374635, 14566680578165727644, 15097957966210449927,
   16922976911328602910, 17689382322260857208, 500013540394364858,
   748580250866718886, 1242879168328830382, 1977374033974150939,
   2944078676154940804, 3659926193048069267, 4368137639120453308,
   4836135668995329356, 5532061633213252278, 6448918945643986474,
   6902733635092675308, 7801388544844847127]

/-- SHA-512 initial hash value (first 64 bits of the fractional parts of the
square roots of the first 8 primes). -/
def H512 : List Nat :=
  [7640891576956012808, 13503953896175478587, 4354685564936845355,
   11912009170470909681, 5840696475078001361, 11170449401992604703,
   2270897969802886507, 6620516959819538809]

/-- Big-endian 64-bit words from a byte list (length a multiple of 8). -/
def bytesToWords : List Nat → List Nat
  | b0 :: b1 :: b2 :: b3 :: b4 :: b5 :: b6 :: b7 :: rest =>
    ((((((((b0 <<< 8) ||| b1) <<< 8 ||| b2) <<< 8 ||| b3) <<< 8 ||| b4) <<< 8 ||| b5)
        <<< 8 ||| b6) <<< 8 ||| b7) :: bytesToWords rest
  | _ => []

/-- The 16-byte big-endian encoding of the bit length appended by padding. -/
def lenBytes (n : Nat) : List Nat :=
  (List.range 16).map (fun i => (n >>> (8 * (15 - i))) &&& 0xff)

/-- SHA-512 message padding: `0x80`, zeros to 112 mod 128, then the 128-bit
big-endian message bit length. -/
def padMessage (msg : List Nat) : List Nat :=
  let L := msg.length
  let zeros := (128 - ((L + 17) % 128)) % 128
  msg ++ [0x80] ++ List.replicate zeros 0 ++ lenBytes (8 * L)

/-- The 80-entry message schedule from the 16 words of one block. -/
def schedule (ws : List Nat) : Array Nat :=
  (List.range 64).foldl
    (fun w _ =>
      w.push (add64 (add64 (shas1 (w.getD (w.size - 2) 0)) (w.getD (w.size - 7) 0))
        (add64 (shas0 (w.getD (w.size - 15) 0)) (w.getD (w.size - 16) 0))))
    ws.toArray

/-- One SHA-512 compression step over a 128-byte block. -/
def compress (h : List Nat) (block : List Nat) : List Nat :=
  let w := schedule (bytesToWords block)
  let final := (List.range 80).foldl
    (fun st t =>
      match st with
      | [a, b, c, d, e, f, g, hh] =>
        let t1 := add64 hh (add64 (shaS1 e)
          (add64 (shaCh e f g) (add64 (K512.getD t 0) (w.getD t 0))))
        let t2 := add64 (shaS0 a) (shaMaj a b c)
        [add64 t1 t2, a, b, c, add64 d t1, e, f, g]
      | other => other)
    h
  List.zipWith add64 h final

/-- Split a list into 128-byte chunks (fuelled by the list length). -/
def chunksAux : Nat → List Nat → List (List Nat)
  | 0, _ => []
  | _ + 1, [] => []
  | n + 1, l => l.take 128 :: chunksAux n (l.drop 128)

/-- SHA-512 of a byte list: the eight 64-bit words of the digest. -/
def sha512 (msg : List Nat) : List Nat :=
  let padded := padMessage msg
  (chunksAux padded.length padded).foldl compress H512

/-- Lowercase hex digit. -/
def hexDigit (n : Nat) : Char :=
  if n < 10 then Char.ofNat (48 + n) else Char.ofNat (87 + n)

/-- 16-hex-digit rendering of one 64-bit word. -/
def hex16 (n : Nat) : String :=
  String.mk ((List.range 16).map (fun i => hexDigit ((n >>> (4 * (15 - i))) &&& 15)))

/-- `hashlib.sha512(bytes).hexdigest()`: 128 lowercase hex characters. -/
def sha512hex (msg : List Nat) : String :=
  String.join ((sha512 msg).map hex16)

/-- Python `str.encode("ascii")`: the code points when all are ASCII, a
`UnicodeEncodeError` otherwise. -/
def encodeAscii (s : String) : Except PyErr (List Nat) :=
  if s.data.all (fun c => c.toNat < 128) then .ok (s.data.map (fun c => c.toNat))
  else .error .unicodeEncodeError

/-- The header dict built by `__headers` (source lines 40-52); the fixed
fields are omitted from the claims but kept for fidelity.  The dict carries
the timestamp twice, under `"timestamp"` and `"timeStamp"`. -/
structure SignedHeaders where
  contentType : String
  connection : String
  accept : String
  acceptEncoding : String
  cacheControl : String
  timestamp : String
  sign : String
  appId : String
  timeStamp : String
deriving DecidableEq, Repr

/-- `__headers` (source lines 40-52): `timestamp = str(int(time.time()))`;
`sign` is the SHA-512 hex digest of the ASCII encoding of
`str(appID) + str(appSecret) + str(timestamp)`.  The wall clock is passed in
as the whole-second value `now`. -/
def headersOf (appID appSecret : String) (now : Nat) : Except PyErr SignedHeaders :=
  let timestamp := toString now
  match encodeAscii (appID ++ appSecret ++ timestamp) with
  | .error e => .error e
  | .ok bytes =>
    .ok { contentType := "application/json"
          connection := "keep-alive"
          accept := "*/*"
          acceptEncoding := "gzip, deflate, br"
          cacheControl := "no-cache"
          timestamp := timestamp
          sign := sha512hex bytes
          appId := appID
          timeStamp := timestamp }

/-! ### The battery write path (`setbatterycharge` / `setbatterydischarge`) -/

/-- Python subscript assignment `x[k] = v` for the shapes the source
exercises: updating a dict under a string key succeeds; assigning a string
key onto a list raises `TypeError`; remaining shapes also raise `TypeError`. -/
def setItem (x : JSON) (k : String) (v : JSON) : Except PyErr JSON :=
  match x with
  | .obj fs => .ok (.obj (setFields fs k v))
  | .arr _ => .error (.typeError "list indices must be integers or slices, not str")
  | _ => .error (.typeError "object does not support item assignment")

/-- The settings construction in `setbatterycharge` (source lines 299-311):
`settings = []` followed by seven string-keyed subscript assignments, in
source order. -/
def buildChargeSettings (serial : JSON) (enabled : Bool)
    (cp1start cp1end cp2start cp2end : JSON) (chargestopsoc : Int) :
    Except PyErr JSON := do
  let settings := JSON.arr []
  let settings ← setItem settings "sysSn" serial
  let settings ← setItem settings "gridCharge" (.num (if enabled then 1 else 0))
  let settings ← setItem settings "timeChaf1" cp1start
  let settings ← setItem settings "timeChae1" cp1end
  let settings ← setItem settings "timeChaf2" cp2start
  let settings ← setItem settings "timeChae2" cp2end
  let settings ← setItem settings "batHighCap" (.num chargestopsoc)
  return settings

/-- The settings construction in `setbatterydischarge` (source lines 319-330). -/
def buildDischargeSettings (serial : JSON) (enabled : Bool)
    (dp1start dp1end dp2start dp2end : JSON) (dischargecutoffsoc : Int) :
    Except PyErr JSON := do
  let settings := JSON.arr []
  let settings ← setItem settings "sysSn" serial
  let settings ← setItem settings "ctrDis" (.num (if enabled then 1 else 0))
  let settings ← setItem settings "timeDisf1" dp1start
  let settings ← setItem settings "timeDise1" dp1end
  let settings ← setItem settings "timeDisf2" dp2start
  let settings ← setItem settings "timeDise2" dp2end
  let settings ← setItem settings "batUseCap" (.num dischargecutoffsoc)
  return settings

/-- `setbatterycharge` (source lines 299-317): build the settings, then POST
them; its `except` logs and re-raises, so construction errors propagate.  The
boolean records whether the POST was ever submitted. -/
def setbatterycharge (post : JSON → HttpOutcome) (serial : JSON) (enabled : Bool)
    (cp1start cp1end cp2start cp2end : JSON) (chargestopsoc : Int) :
    Except PyErr (Option JSON) × Bool :=
  match buildChargeSettings serial enabled cp1start cp1end cp2start cp2end chargestopsoc with
  | .error e => (.error e, false)
  | .ok settings => ((api_post (post settings)).1, true)

/-- `setbatterydischarge` (source lines 319-337), analogous to
`setbatterycharge`. -/
def setbatterydischarge (post : JSON → HttpOutcome) (serial : JSON) (enabled : Bool)
    (dp1start dp1end dp2start dp2end : JSON) (dischargecutoffsoc : Int) :
    Except PyErr (Option JSON) × Bool :=
  match buildDischargeSettings serial enabled dp1start dp1end dp2start dp2end dischargecutoffsoc with
  | .error e => (.error e, false)
  | .ok settings => ((api_post (post settings)).1, true)

/-! ### Helper lemmas -/

theorem lookup_setFields_self (fs : List (String × JSON)) (k : String) (v : JSON) :
    lookupKey (setFields fs k v) k = some v := by
  induction fs with
  | nil => simp [setFields, lookupKey]
  | cons p rest ih =>
    obtain ⟨k', v'⟩ := p
    by_cases h : k' = k
    · simp [setFields, lookupKey, h]
    · simp [setFields, lookupKey, h, ih]

theorem lookup_setFields_other (fs : List (String × JSON)) (k k' : String) (v : JSON)
    (h : k' ≠ k) : lookupKey (setFields fs k v) k' = lookupKey fs k' := by
  have h' : k ≠ k' := Ne.symm h
  induction fs with
  | nil => simp [setFields, lookupKey, h']
  | cons p rest ih =>
    obtain ⟨k0, v0⟩ := p
    by_cases h0 : k0 = k
    · subst h0
      simp [setFields, lookupKey, h']
    · simp [setFields, lookupKey, h0, ih]

/-- The per-unit trace of `unitCalls`, written out. -/
theorem unitCalls_trace (srv : Server) (gp : Bool) (d : Nat) (u : JSON) :
    (unitCalls srv gp d u).2 =
      (let s := (u.getKey "sysSn").getD .null
       [Act.call .sumDataForCustomer s, .sleep d,
        Act.call .oneDateEnergy s, .sleep d,
        Act.call .lastPowerData s, .sleep d,
        Act.call .chargeConfigInfo s, .sleep d,
        Act.call .disChargeConfigInfo s] ++
         (if gp then [Act.sleep d, Act.call .oneDayPower s] else [])) := by
  cases gp <;> simp [unitCalls]

/-- The `SumData` entry of an enriched record is exactly the (possibly
`None`, stored as `null`) result of the summary wrapper call. -/
theorem unitCalls_sumData (srv : Server) (gp : Bool) (d : Nat)
    (fs : List (String × JSON)) :
    ((unitCalls srv gp d (.obj fs)).1).getKey "SumData" =
      some (pyToJSON (getSumDataForCustomer
        (srv.sumData ((lookupKey fs "sysSn").getD .null))).1) := by
  cases gp <;>
    simp [unitCalls, JSON.setKeyO, JSON.getKey,
      lookup_setFields_other, lookup_setFields_self]

theorem foldl_getdataStep (srv : Server) (gp : Bool) (d : Nat) (units : List JSON) :
    ∀ acc : List JSON × List Act,
      units.foldl (getdataStep srv gp d) acc =
        (acc.1 ++ (units.filter (·.hasKey "sysSn")).map (fun u => (unitCalls srv gp d u).1),
         acc.2 ++ (units.filter (·.hasKey "sysSn")).flatMap (fun u => (unitCalls srv gp d u).2)) := by
  induction units with
  | nil => intro acc; simp
  | cons u us ih =>
    intro acc
    cases hk : u.hasKey "sysSn" <;> simp [getdataStep, hk, ih]

/-- Master description of `getdata` when the list call produced a JSON array:
the result is `ok` (one enriched record per entry bearing a serial, in list
order) and the trace is the list call followed by the per-unit traces. -/
theorem getdata_list (srv : Server) (gp : Bool) (d : Nat) (units : List JSON)
    (h : (getESSList srv.essList).1 = some (.arr units)) :
    getdata srv gp d =
      (.ok ((units.filter (·.hasKey "sysSn")).map (fun u => (unitCalls srv gp d u).1)),
       Act.call .essList .null ::
         (units.filter (·.hasKey "sysSn")).flatMap (fun u => (unitCalls srv gp d u).2)) := by
  unfold getdata
  rw [h]
  simp [foldl_getdataStep]

set_option maxRecDepth 10000 in
/-- SHA-512 sanity vector: the digest of `"abc"` (bytes `[97, 98, 99]`)
matches the published FIPS 180-4 value. -/
theorem sha512_abc_vector :
    sha512hex [97, 98, 99] =
      "ddaf35a193617abacc417349ae20413112e6fa4e89a97ea20a9eeee64b55d39a2192992a274fc1a836ba3c23a3feebbd454d4423643ce80e2a9ac94fa54ca49f" := by
  rfl

/-! ### Claim theorems -/

theorem msgIsSuccess_isSome (o : Option JSON) (h : msgIsSuccess o = true) :
    o.isSome = true := by
  cases o with
  | none => simp [msgIsSuccess] at h
  | some v => rfl

theorem hasKey_of_msgSuccess (fs : List (String × JSON))
    (h : msgIsSuccess ((JSON.obj fs).getKey "msg") = true) :
    (JSON.obj fs).hasKey "msg" = true := by
  have := msgIsSuccess_isSome _ h
  simpa [JSON.hasKey, JSON.getKey] using this

/-- C1 (amended): on an HTTP-success (200) GET with an object body, a missing
or non-`"Success"` `msg` yields `None` (not an error); with the success
marker, a present `data` is returned unchanged unless it is `null` (then
`None`); but with the success marker and no `data` key at all the call raises
a `KeyError` instead of returning an absent result. -/
theorem api_get_envelope_cases (fs : List (String × JSON)) :
    (((JSON.obj fs).hasKey "msg" = false ∨
        msgIsSuccess ((JSON.obj fs).getKey "msg") = false) →
      (api_get (.response 200 (some (.obj fs)))).1 = .ok none)
  ∧ (∀ d : JSON, msgIsSuccess ((JSON.obj fs).getKey "msg") = true →
      (JSON.obj fs).getKey "data" = some d →
      (api_get (.response 200 (some (.obj fs)))).1 =
        .ok (if d.isNull then none else some d))
  ∧ (msgIsSuccess ((JSON.obj fs).getKey "msg") = true →
      (JSON.obj fs).hasKey "data" = false →
      (api_get (.response 200 (some (.obj fs)))).1 = .error (.keyError "data")) := by
  refine ⟨?_, ?_, ?_⟩
  · intro h
    have hc : (((JSON.obj fs).hasKey "msg" && !(msgIsSuccess ((JSON.obj fs).getKey "msg")))
        || !(JSON.obj fs).hasKey "msg") = true := by
      rcases h with h | h <;> simp [h]
    simp [api_get, hc]
  · intro d hmsg hdata
    have hk := hasKey_of_msgSuccess fs hmsg
    have hd : lookupKey fs "data" = some d := by simpa [JSON.getKey] using hdata
    cases hn : d.isNull <;>
      simp [api_get, hk, hmsg, getItem, hd, hn]
  · intro hmsg hdk
    have hk := hasKey_of_msgSuccess fs hmsg
    have hd : lookupKey fs "data" = none := by
      have : (lookupKey fs "data").isSome = false := by
        simpa [JSON.hasKey] using hdk
      exact Option.not_isSome_iff_eq_none.mp (by simp [this])
    simp [api_get, hk, hmsg, getItem, hd]

theorem api_get_envelope_cases_witness :
    (api_get (.response 200 (some (.obj
        [("msg", .str "Success"), ("data", .arr [.obj [("sysSn", .str "X1")]])])))).1 =
      .ok (some (.arr [.obj [("sysSn", .str "X1")]])) :=
  (api_get_envelope_cases
      [("msg", .str "Success"), ("data", .arr [.obj [("sysSn", .str "X1")]])]).2.1
    (.arr [.obj [("sysSn", .str "X1")]]) rfl rfl

/-- C1 counterexample: with the success marker present but the `data` key
absent, `api_get` raises a `KeyError` instead of returning an absent result. -/
theorem api_get_missing_data_raises :
    (api_get (.response 200 (some (.obj [("msg", .str "Success")])))).1 =
      .error (.keyError "data") := rfl

/-- C6 (amended): on an HTTP-success (200) POST with an object body, when the
success marker is present and `data` is a key, `api_post` returns the `data`
payload whether or not it is `null` — but it logs the "unexpected" error
precisely when `data` is non-null; when the success marker is missing or not
`"Success"`, `api_post` returns an absent result and logs nothing. -/
theorem api_post_envelope_cases (fs : List (String × JSON)) :
    (∀ d : JSON, msgIsSuccess ((JSON.obj fs).getKey "msg") = true →
      (JSON.obj fs).getKey "data" = some d →
      api_post (.response 200 (some (.obj fs))) =
        (.ok (if d.isNull then none else some d),
         if d.isNull then [] else ["error: unexpected json_response"]))
  ∧ (msgIsSuccess ((JSON.obj fs).getKey "msg") = false →
      api_post (.response 200 (some (.obj fs))) = (.ok none, [])) := by
  constructor
  · intro d hmsg hdata
    have hk := hasKey_of_msgSuccess fs hmsg
    have hd : lookupKey fs "data" = some d := by simpa [JSON.getKey] using hdata
    cases hn : d.isNull <;>
      simp [api_post, hk, hmsg, getItem, hd, hn]
  · intro hmsg
    simp [api_post, hmsg]

theorem api_post_envelope_cases_witness :
    api_post (.response 200 (some (.obj [("msg", .str "Success"), ("data", .null)]))) =
      (.ok none, []) :=
  (api_post_envelope_cases [("msg", .str "Success"), ("data", .null)]).1 .null rfl rfl

/-- C6 counterexample: without the success marker nothing is logged;
`api_post` returns `None` with an empty error log. -/
theorem api_post_missing_marker_unlogged :
    api_post (.response 200 (some (.obj [("msg", .str "Fail")]))) = (.ok none, []) := rfl

/-- Any exception raised by `api_get` is swallowed by the shared wrapper
shape: the wrapper returns Python `None` instead of re-raising. -/
theorem wrapGet_error (o : HttpOutcome) (e : PyErr)
    (h : (api_get o).1 = .error e) : (wrapGet o).1 = none := by
  have h2 : api_get o = (.error e, (api_get o).2) := by
    rw [← h]
  unfold wrapGet
  rw [h2]

/-- C2 (amended): `api_get`/`api_post` raise every kind of transport failure
(connection error, HTTP error status, malformed body) to their caller, but
every per-endpoint wrapper catches every exception `api_get` raises and
converts it into an absent result; whenever the device-list call fails with
any transport error, `getdata` still raises — a `TypeError` from iterating
the absent result, not the original transport error — and produces no device
records. -/
theorem transport_error_propagation :
    (api_get HttpOutcome.connError).1 = .error .connectionError
  ∧ (∀ (st : Nat) (body : Option JSON), 400 ≤ st →
      (api_get (.response st body)).1 = .error (.responseError st))
  ∧ (api_get (.response 200 none)).1 = .error .jsonDecodeError
  ∧ (api_post HttpOutcome.connError).1 = .error .connectionError
  ∧ (∀ (st : Nat) (body : Option JSON), 400 ≤ st →
      (api_post (.response st body)).1 = .error (.responseError st))
  ∧ (api_post (.response 200 none)).1 = .error .jsonDecodeError
  ∧ (∀ (o : HttpOutcome) (e : PyErr), (api_get o).1 = .error e →
      (getESSList o).1 = none
      ∧ (getLastPowerData o).1 = none
      ∧ (getOneDayPowerBySn o).1 = none
      ∧ (getSumDataForCustomer o).1 = none
      ∧ (getOneDateEnergyBySn o).1 = none
      ∧ (getChargeConfigInfo o).1 = none
      ∧ (getDisChargeConfigInfo o).1 = none)
  ∧ (∀ (srv : Server) (gp : Bool) (d : Nat) (e : PyErr),
      (api_get srv.essList).1 = .error e →
      getdata srv gp d =
        (.error (.typeError "NoneType object is not iterable"),
         [Act.call .essList .null])) := by
  refine ⟨rfl, ?_, rfl, rfl, ?_, rfl, ?_, ?_⟩
  · intro st body h
    simp [api_get, h]
  · intro st body h
    simp [api_post, h]
  · intro o e h
    have hw := wrapGet_error o e h
    exact ⟨hw, hw, hw, hw, hw, hw, hw⟩
  · intro srv gp d e h
    have hn : (getESSList srv.essList).1 = none := wrapGet_error srv.essList e h
    unfold getdata
    rw [hn]

/-- C2 counterexample: a transport failure in `getESSList` is converted into a
silent absent result instead of surfacing to its caller as a raised error. -/
theorem getESSList_swallows_transport_error :
    (getESSList HttpOutcome.connError).1 = none := rfl

/-- A server whose every endpoint fails at the transport level. -/
def srvDown : Server :=
  { essList := .connError
    sumData := fun _ => .connError
    oneDateEnergy := fun _ => .connError
    lastPower := fun _ => .connError
    chargeConfig := fun _ => .connError
    disChargeConfig := fun _ => .connError
    oneDayPower := fun _ => .connError }

/-- A server whose list endpoint answers with an HTTP error status. -/
def srv503 : Server :=
  { srvDown with essList := .response 503 none }

theorem transport_error_propagation_witness :
    (api_get (.response 500 none)).1 = .error (.responseError 500)
  ∧ (api_post (.response 500 none)).1 = .error (.responseError 500)
  ∧ (getESSList (.response 200 none)).1 = none
  ∧ (getSumDataForCustomer HttpOutcome.connError).1 = none
  ∧ getdata srvDown true 3 =
      (.error (.typeError "NoneType object is not iterable"),
       [Act.call .essList .null])
  ∧ getdata srv503 false 0 =
      (.error (.typeError "NoneType object is not iterable"),
       [Act.call .essList .null]) :=
  ⟨transport_error_propagation.2.1 500 none (by decide),
   transport_error_propagation.2.2.2.2.1 500 none (by decide),
   (transport_error_propagation.2.2.2.2.2.2.1 (.response 200 none) .jsonDecodeError rfl).1,
   (transport_error_propagation.2.2.2.2.2.2.1 HttpOutcome.connError .connectionError rfl).2.2.2.1,
   transport_error_propagation.2.2.2.2.2.2.2 srvDown true 3 .connectionError rfl,
   transport_error_propagation.2.2.2.2.2.2.2 srv503 false 0 (.responseError 503) rfl⟩

/-- C5: `authenticate` returns `true` exactly when the (non-absent) device
list contains an entry bearing a `sysSn` key, and `false` otherwise (empty
list included); when the list is absent — in particular after a transport
failure in the probe — `authenticate` ends in a raised error, never a silent
`false`. -/
theorem authenticate_spec :
    (∀ (o : HttpOutcome) (us : List JSON),
        (getESSList o).1 = some (.arr us) →
        (authenticate o).1 = .ok (us.any (·.hasKey "sysSn")))
  ∧ (∀ o : HttpOutcome, (getESSList o).1 = none →
        (authenticate o).1 = .error (.typeError "NoneType object is not iterable"))
  ∧ (authenticate HttpOutcome.connError).1 =
      .error (.typeError "NoneType object is not iterable") := by
  refine ⟨?_, ?_, rfl⟩
  · intro o us h
    have h2 : getESSList o = (some (.arr us), (getESSList o).2) := by
      rw [← h]
    unfold authenticate
    rw [h2]
  · intro o h
    have h2 : getESSList o = (none, (getESSList o).2) := by
      rw [← h]
    unfold authenticate
    rw [h2]

theorem authenticate_spec_witness :
    (authenticate (.response 200 (some (.obj
        [("msg", .str "Success"), ("data", .arr [.obj [("sysSn", .str "X1")]])])))).1 =
      .ok true
  ∧ (authenticate (.response 200 (some (.obj
        [("msg", .str "Success"), ("data", .arr [])])))).1 = .ok false :=
  ⟨authenticate_spec.1 _ [.obj [("sysSn", .str "X1")]] rfl,
   authenticate_spec.1 _ [] rfl⟩

/-- C3: once the device list arrived, no sub-call outcome (the server
functions are arbitrary here) can abort the aggregation — the result is `ok`
with one enriched record per serial-bearing entry — and each enriched
record's `SumData` entry is exactly the summary wrapper's (possibly absent,
stored as `null`) result. -/
theorem getdata_tolerates_absent_subresults (srv : Server) (gp : Bool) (d : Nat)
    (units : List JSON) (h : (getESSList srv.essList).1 = some (.arr units)) :
    (getdata srv gp d).1 =
      .ok ((units.filter (·.hasKey "sysSn")).map (fun u => (unitCalls srv gp d u).1))
  ∧ ∀ fs : List (String × JSON),
      ((unitCalls srv gp d (.obj fs)).1).getKey "SumData" =
        some (pyToJSON (getSumDataForCustomer
          (srv.sumData ((lookupKey fs "sysSn").getD .null))).1) := by
  refine ⟨?_, fun fs => unitCalls_sumData srv gp d fs⟩
  rw [getdata_list srv gp d units h]

/-- A business-successful envelope around a `data` payload. -/
def okEnv (d : JSON) : HttpOutcome :=
  .response 200 (some (.obj [("msg", .str "Success"), ("data", d)]))

/-- A two-device server whose summary endpoint answers the second device with
a business failure (HTTP 200, envelope without the success marker). -/
def srv2 : Server :=
  { essList := okEnv (.arr [.obj [("sysSn", .str "A1")], .obj [("sysSn", .str "B2")]])
    sumData := fun s => match s with
      | .str "B2" => .response 200 (some (.obj [("msg", .str "Fail")]))
      | _ => okEnv (.str "SUM")
    oneDateEnergy := fun _ => okEnv (.str "NRG")
    lastPower := fun _ => okEnv (.str "PWR")
    chargeConfig := fun _ => okEnv (.str "CHG")
    disChargeConfig := fun _ => okEnv (.str "DIS")
    oneDayPower := fun _ => okEnv (.str "CURVE") }

theorem getdata_tolerates_absent_subresults_witness :
    (getdata srv2 false 0).1 =
      .ok [.obj [("sysSn", .str "A1"), ("SumData", .str "SUM"),
                 ("OneDateEnergy", .str "NRG"), ("LastPower", .str "PWR"),
                 ("ChargeConfig", .str "CHG"), ("DisChargeConfig", .str "DIS")],
           .obj [("sysSn", .str "B2"), ("SumData", .null),
                 ("OneDateEnergy", .str "NRG"), ("LastPower", .str "PWR"),
                 ("ChargeConfig", .str "CHG"), ("DisChargeConfig", .str "DIS")]] :=
  (getdata_tolerates_absent_subresults srv2 false 0
    [.obj [("sysSn", .str "A1")], .obj [("sysSn", .str "B2")]] rfl).1

/-- C4: for each serial-bearing entry, in list order, the sub-calls are issued
in the fixed order summary, daily energy, last power, charge configuration,
discharge configuration, with a sleep of the configured delay between
consecutive calls, and the power-curve call (preceded by one more sleep) comes
last exactly when the flag is set; the records come back in list order. -/
theorem getdata_call_order (srv : Server) (gp : Bool) (d : Nat)
    (units : List JSON) (h : (getESSList srv.essList).1 = some (.arr units)) :
    (getdata srv gp d).2 =
      Act.call .essList .null ::
        (units.filter (·.hasKey "sysSn")).flatMap (fun u =>
          [Act.call .sumDataForCustomer ((u.getKey "sysSn").getD .null),
           Act.sleep d,
           Act.call .oneDateEnergy ((u.getKey "sysSn").getD .null),
           Act.sleep d,
           Act.call .lastPowerData ((u.getKey "sysSn").getD .null),
           Act.sleep d,
           Act.call .chargeConfigInfo ((u.getKey "sysSn").getD .null),
           Act.sleep d,
           Act.call .disChargeConfigInfo ((u.getKey "sysSn").getD .null)] ++
          (if gp then [Act.sleep d, Act.call .oneDayPower ((u.getKey "sysSn").getD .null)]
           else []))
  ∧ (getdata srv gp d).1 =
      .ok ((units.filter (·.hasKey "sysSn")).map (fun u => (unitCalls srv gp d u).1)) := by
  rw [getdata_list srv gp d units h]
  exact ⟨by simp [unitCalls_trace], rfl⟩

theorem getdata_call_order_witness :
    (getdata srv2 true 7).2 =
      [Act.call .essList .null,
       Act.call .sumDataForCustomer (.str "A1"), Act.sleep 7,
       Act.call .oneDateEnergy (.str "A1"), Act.sleep 7,
       Act.call .lastPowerData (.str "A1"), Act.sleep 7,
       Act.call .chargeConfigInfo (.str "A1"), Act.sleep 7,
       Act.call .disChargeConfigInfo (.str "A1"), Act.sleep 7,
       Act.call .oneDayPower (.str "A1"),
       Act.call .sumDataForCustomer (.str "B2"), Act.sleep 7,
       Act.call .oneDateEnergy (.str "B2"), Act.sleep 7,
       Act.call .lastPowerData (.str "B2"), Act.sleep 7,
       Act.call .chargeConfigInfo (.str "B2"), Act.sleep 7,
       Act.call .disChargeConfigInfo (.str "B2"), Act.sleep 7,
       Act.call .oneDayPower (.str "B2")] :=
  (getdata_call_order srv2 true 7
    [.obj [("sysSn", .str "A1")], .obj [("sysSn", .str "B2")]] rfl).1

/-- C10: entries without a `sysSn` key are skipped outright — the output and
the trace range only over the serial-bearing entries — so an empty (or
entirely serial-less) list yields an empty result with no sub-call, no sleep
and no error. -/
theorem getdata_skips_units_without_serial (srv : Server) (gp : Bool) (d : Nat)
    (units : List JSON) (h : (getESSList srv.essList).1 = some (.arr units)) :
    getdata srv gp d =
      (.ok ((units.filter (·.hasKey "sysSn")).map (fun u => (unitCalls srv gp d u).1)),
       Act.call .essList .null ::
         (units.filter (·.hasKey "sysSn")).flatMap (fun u => (unitCalls srv gp d u).2))
  ∧ (units.filter (·.hasKey "sysSn") = [] →
      getdata srv gp d = (.ok [], [Act.call .essList .null])) := by
  have m := getdata_list srv gp d units h
  exact ⟨m, fun he => by rw [m, he]; simp⟩

/-- A server whose list endpoint returns one entry lacking `sysSn`. -/
def srvNoSerial : Server :=
  { srv2 with essList := okEnv (.arr [.obj [("model", .str "M1")]]) }

theorem getdata_skips_units_without_serial_witness :
    getdata srvNoSerial false 0 = (.ok [], [Act.call .essList .null]) :=
  (getdata_skips_units_without_serial srvNoSerial false 0
    [.obj [("model", .str "M1")]] rfl).2 rfl

/-- C7: whatever `queryDate` the caller passes, the daily-power and
daily-energy resources are built with the current local date as the
`queryDate` parameter. -/
theorem query_date_forced_to_local :
    ∀ sysSn queryDate localdate : String,
      oneDayPowerResource sysSn queryDate localdate =
        BASEURL ++ "/getOneDayPowerBySn?sysSn=" ++ sysSn ++ "&queryDate=" ++ localdate
    ∧ oneDateEnergyResource sysSn queryDate localdate =
        BASEURL ++ "/getOneDateEnergyBySn?sysSn=" ++ sysSn ++ "&queryDate=" ++ localdate := by
  intro s q l
  constructor
  · unfold oneDayPowerResource
    split
    · rename_i hq; rw [hq]
    · rfl
  · unfold oneDateEnergyResource
    split
    · rename_i hq; rw [hq]
    · rfl

/-- C8: both battery-setting operations start from `settings = []` and assign
named fields onto that list, so the very first assignment raises `TypeError`
for every input and the POST request is never submitted. -/
theorem setbattery_raises_before_post :
    ∀ (post : JSON → HttpOutcome) (serial : JSON) (enabled : Bool)
      (p1start p1end p2start p2end : JSON) (soc : Int),
      setbatterycharge post serial enabled p1start p1end p2start p2end soc =
        (.error (.typeError "list indices must be integers or slices, not str"), false)
    ∧ setbatterydischarge post serial enabled p1start p1end p2start p2end soc =
        (.error (.typeError "list indices must be integers or slices, not str"), false) := by
  intro post serial enabled p1start p1end p2start p2end soc
  exact ⟨rfl, rfl⟩

/-- The header record `__headers` produces, as a function of the concatenated
credential-and-timestamp string. -/
theorem headersOf_eq (a s : String) (n : Nat) :
    headersOf a s n = (encodeAscii (a ++ s ++ toString n)).map (fun bytes =>
      { contentType := "application/json"
        connection := "keep-alive"
        accept := "*/*"
        acceptEncoding := "gzip, deflate, br"
        cacheControl := "no-cache"
        timestamp := toString n
        sign := sha512hex bytes
        appId := a
        timeStamp := toString n }) := by
  unfold headersOf
  cases hE : encodeAscii (a ++ s ++ toString n) <;> simp [hE, Except.map]

/-- C9 (amended): the `sign` header is the SHA-512 hex digest of the ASCII
bytes of `appId ++ appSecret ++ timestamp`, and the `timestamp`/`timeStamp`
headers carry the very string hashed; being a function of its inputs, the
signature is deterministic in the triple — but it depends on the triple only
through the concatenation, so distinct triples with equal concatenations
produce identical signatures. -/
theorem sign_structure :
    (∀ (a s : String) (n : Nat),
      headersOf a s n = (encodeAscii (a ++ s ++ toString n)).map (fun bytes =>
        { contentType := "application/json"
          connection := "keep-alive"
          accept := "*/*"
          acceptEncoding := "gzip, deflate, br"
          cacheControl := "no-cache"
          timestamp := toString n
          sign := sha512hex bytes
          appId := a
          timeStamp := toString n }))
  ∧ (∀ (a s : String) (n : Nat) (a' s' : String) (n' : Nat),
      a ++ s ++ toString n = a' ++ s' ++ toString n' →
      (headersOf a s n).map SignedHeaders.sign =
        (headersOf a' s' n').map SignedHeaders.sign) := by
  refine ⟨headersOf_eq, ?_⟩
  intro a s n a' s' n' h
  rw [headersOf_eq, headersOf_eq, h]
  cases encodeAscii (a' ++ s' ++ toString n') <;> simp [Except.map]

theorem sign_structure_witness :
    (headersOf "a" "b2" 345).map SignedHeaders.sign =
      (headersOf "a" "b" 2345).map SignedHeaders.sign :=
  sign_structure.2 "a" "b2" 345 "a" "b" 2345 (by decide)

/-- C9 counterexample: two different `(appId, appSecret, timestamp)` triples
whose concatenations agree produce the same signature, so a change of the
inputs does not always change the signature. -/
theorem sign_concat_collision :
    (headersOf "a" "b2" 345).map SignedHeaders.sign =
      (headersOf "a" "b" 2345).map SignedHeaders.sign
  ∧ ¬("b2" = "b" ∧ (345 : Nat) = 2345) :=
  ⟨rfl, by decide⟩
